import Mathlib

/-!
Verification development for the NetraCare eye-tracking core
(`netracare_backend/eye_tracking_opencv.py`).

The Python module is shallowly embedded as follows.

* Floating-point numbers are modelled as exact numbers: the geometric part
  (`calculate_distance`, `calculate_ear`), which needs a square root, lives
  over `ℝ`; the tracker state machine (`detect_blink`), the gaze classifier
  (`estimate_gaze_direction`) and the session statistics (`get_statistics`)
  are written once over an arbitrary `LinearOrderedField` and instantiated
  at `ℚ` (so that concrete runs are decidable) and, inside `process_frame`,
  at `ℝ`.
* The mutable fields of the Python class `EyeTracker` become an explicit
  `TrackerState` record which every operation takes and returns.
* The `ValueError` raised by `calculate_ear` and the error dictionary
  returned by `get_statistics` become `Except String _` respectively a
  `StatsResult` sum.
* Python's `round(x, n)` (round to `n` decimal digits, ties to even) is
  modelled on the exact value by `pyround`; binary floating-point
  representation effects are not modelled.
-/

set_option maxHeartbeats 1000000

/-! ## GeometryMetrics: `EyeAspectRatioCalculator` -/

/-- `EyeAspectRatioCalculator.calculate_distance`: Euclidean distance between
two 2-D points (`np.linalg.norm(point1 - point2)` on 2-vectors). -/
noncomputable def calculate_distance (point1 point2 : ℝ × ℝ) : ℝ :=
  Real.sqrt ((point1.1 - point2.1) ^ 2 + (point1.2 - point2.2) ^ 2)

/-- Body of `EyeAspectRatioCalculator.calculate_ear` after the length check:
two vertical distances over twice the horizontal distance, with the
degenerate zero-horizontal case returning `0.0`.  Indexing uses `getD`;
inside the length-6 guard every index `0..5` is in range, so the default is
never consulted. -/
noncomputable def ear_formula (eye_landmarks : List (ℝ × ℝ)) : ℝ :=
  let vertical_1 := calculate_distance (eye_landmarks.getD 1 (0, 0)) (eye_landmarks.getD 5 (0, 0))
  let vertical_2 := calculate_distance (eye_landmarks.getD 2 (0, 0)) (eye_landmarks.getD 4 (0, 0))
  let horizontal := calculate_distance (eye_landmarks.getD 0 (0, 0)) (eye_landmarks.getD 3 (0, 0))
  if horizontal = 0 then 0 else (vertical_1 + vertical_2) / (2 * horizontal)

/-- `EyeAspectRatioCalculator.calculate_ear`: raises
`ValueError("Eye landmarks must contain exactly 6 points")` unless the
contour has exactly 6 points, otherwise returns the EAR value.  The raise
is modelled as `Except.error`. -/
noncomputable def calculate_ear (eye_landmarks : List (ℝ × ℝ)) : Except String ℝ :=
  if eye_landmarks.length = 6 then Except.ok (ear_formula eye_landmarks)
  else Except.error "Eye landmarks must contain exactly 6 points"

/-- The EAR formula exactly as the specification words it (section 4.1):
`(dist(eye[1],eye[5]) + dist(eye[2],eye[4])) / (2*dist(eye[0],eye[3]))`,
returning `0.0` when the horizontal distance is exactly `0`.  Written from
the spec, to be compared with the source's `calculate_ear`. -/
noncomputable def ear_spec (eye : List (ℝ × ℝ)) : ℝ :=
  if calculate_distance (eye.getD 0 (0, 0)) (eye.getD 3 (0, 0)) = 0 then 0
  else
    (calculate_distance (eye.getD 1 (0, 0)) (eye.getD 5 (0, 0)) +
        calculate_distance (eye.getD 2 (0, 0)) (eye.getD 4 (0, 0))) /
      (2 * calculate_distance (eye.getD 0 (0, 0)) (eye.getD 3 (0, 0)))

/-! ## Data records (`BlinkData`, `EyeMovementData`) and `EyeTracker` state -/

/-- Python dataclass `BlinkData`. -/
structure BlinkData (α : Type) where
  timestamp : α
  left_ear : α
  right_ear : α
  avg_ear : α
  is_blinking : Bool
  blink_count : ℕ
deriving DecidableEq

/-- Python dataclass `EyeMovementData`. -/
structure EyeMovementData (α : Type) where
  timestamp : α
  left_gaze_x : α
  left_gaze_y : α
  right_gaze_x : α
  right_gaze_y : α
  gaze_direction : String
deriving DecidableEq

/-- The mutable tracking fields of the Python `EyeTracker` instance
(`blink_counter`, `total_blinks`, `frame_counter`, `blink_history`,
`movement_history`), made into an explicit state record.  `blink_counter`
is initialised and reset by the source but never otherwise used. -/
structure TrackerState (α : Type) where
  blink_counter : ℕ
  total_blinks : ℕ
  frame_counter : ℕ
  blink_history : List (BlinkData α)
  movement_history : List (EyeMovementData α)
deriving DecidableEq

section TrackerCore

variable {α : Type} [LinearOrderedField α]

instance : Inhabited (BlinkData α) := ⟨⟨0, 0, 0, 0, false, 0⟩⟩

/-- `EyeTracker.EAR_THRESHOLD = 0.21`. -/
def EAR_THRESHOLD : α := 21 / 100

/-- `EyeTracker.EAR_CONSEC_FRAMES = 2`. -/
def EAR_CONSEC_FRAMES : ℕ := 2

/-- `EyeTracker.detect_blink`: updates `frame_counter` / `total_blinks` and
returns `(is_blinking, avg_ear)`.  The state is passed explicitly. -/
def detect_blink (s : TrackerState α) (left_ear right_ear : α) :
    TrackerState α × Bool × α :=
  let avg_ear := (left_ear + right_ear) / 2
  let s1 :=
    if avg_ear < EAR_THRESHOLD then
      { s with frame_counter := s.frame_counter + 1 }
    else
      let s0 :=
        if s.frame_counter ≥ EAR_CONSEC_FRAMES then
          { s with total_blinks := s.total_blinks + 1 }
        else s
      { s0 with frame_counter := 0 }
  let is_blinking := decide (s1.frame_counter ≥ EAR_CONSEC_FRAMES)
  (s1, is_blinking, avg_ear)

/-- Componentwise mean of a list of 2-D points (`np.mean(pts, axis=0)`). -/
def mean_point (pts : List (α × α)) : α × α :=
  ((pts.map Prod.fst).sum / pts.length, (pts.map Prod.snd).sum / pts.length)

/-- `EyeTracker.estimate_gaze_direction`: average the iris-centre minus
eye-centre offsets of the two eyes and classify against the fixed pixel
thresholds 5 (horizontal) and 3 (vertical). -/
def estimate_gaze_direction (left_iris right_iris left_eye_corners right_eye_corners :
    List (α × α)) : String :=
  let left_iris_center := mean_point left_iris
  let right_iris_center := mean_point right_iris
  let left_eye_center := mean_point left_eye_corners
  let right_eye_center := mean_point right_eye_corners
  let left_offset_x := left_iris_center.1 - left_eye_center.1
  let left_offset_y := left_iris_center.2 - left_eye_center.2
  let right_offset_x := right_iris_center.1 - right_eye_center.1
  let right_offset_y := right_iris_center.2 - right_eye_center.2
  let avg_offset_x := (left_offset_x + right_offset_x) / 2
  let avg_offset_y := (left_offset_y + right_offset_y) / 2
  let horizontal_threshold : α := 5
  let vertical_threshold : α := 3
  if |avg_offset_x| < horizontal_threshold ∧ |avg_offset_y| < vertical_threshold then
    "center"
  else if avg_offset_x < -horizontal_threshold then "left"
  else if avg_offset_x > horizontal_threshold then "right"
  else if avg_offset_y < -vertical_threshold then "up"
  else if avg_offset_y > vertical_threshold then "down"
  else "center"

/-- The averaged `(avg_offset_x, avg_offset_y)` pair computed inside
`estimate_gaze_direction`, named so that theorems can speak about it. -/
def avg_gaze_offset (left_iris right_iris left_eye_corners right_eye_corners :
    List (α × α)) : α × α :=
  (((mean_point left_iris).1 - (mean_point left_eye_corners).1 +
      ((mean_point right_iris).1 - (mean_point right_eye_corners).1)) / 2,
   ((mean_point left_iris).2 - (mean_point left_eye_corners).2 +
      ((mean_point right_iris).2 - (mean_point right_eye_corners).2)) / 2)

end TrackerCore

section Statistics

variable {α : Type} [LinearOrderedField α] [FloorRing α]

/-- Nearest integer with ties to even (the rounding Python's `round` applies
to the exact value). -/
def roundHalfEven (x : α) : ℤ :=
  let f := ⌊x⌋
  let r := x - (f : α)
  if r < 1 / 2 then f
  else if (1 : α) / 2 < r then f + 1
  else if f % 2 = 0 then f else f + 1

/-- Python `round(x, ndigits)` on the exact value: round to `ndigits`
decimal digits, ties to even. -/
def pyround (ndigits : ℕ) (x : α) : α :=
  (roundHalfEven (x * 10 ^ ndigits) : α) / 10 ^ ndigits

/-- `np.mean` over a list of numbers (sum divided by length). -/
def listMean (xs : List α) : α := xs.sum / xs.length

/-- `np.min` over a (nonempty) list of numbers. -/
def listMin (xs : List α) : α :=
  match xs with
  | [] => 0
  | h :: t => t.foldl min h

/-- `np.max` over a (nonempty) list of numbers. -/
def listMax (xs : List α) : α :=
  match xs with
  | [] => 0
  | h :: t => t.foldl max h

end Statistics

/-- One step of the `gaze_counts` tally loop:
`gaze_counts[direction] = gaze_counts.get(direction, 0) + 1` on an
insertion-ordered association list (Python dicts preserve insertion
order). -/
def tallyDirection (acc : List (String × ℕ)) (direction : String) : List (String × ℕ) :=
  if acc.any (fun p => p.1 = direction) then
    acc.map (fun p => if p.1 = direction then (p.1, p.2 + 1) else p)
  else acc ++ [(direction, 1)]

/-- The per-eye `mean/min/max` block of `ear_statistics`.  The source also
reports `np.std`; that field is irrational-valued (a square root) and no
claim refers to it, so it is not modelled. -/
structure EarFieldStats (α : Type) where
  mean : α
  min : α
  max : α
deriving DecidableEq

/-- The statistics dictionary returned by `EyeTracker.get_statistics` in the
non-empty case (its `std` sub-fields excepted, see `EarFieldStats`). -/
structure SessionStatistics (α : Type) where
  duration_seconds : α
  total_blinks : ℕ
  blink_rate_per_minute : α
  left_eye : EarFieldStats α
  right_eye : EarFieldStats α
  average : EarFieldStats α
  gaze_distribution : List (String × ℕ)
  data_points : ℕ
deriving DecidableEq

/-- Result of `get_statistics`: either the error dictionary
`{"error": msg}` or the full statistics dictionary. -/
inductive StatsResult (α : Type) where
  | error (msg : String)
  | ok (stats : SessionStatistics α)
deriving DecidableEq

section GetStatistics

variable {α : Type} [LinearOrderedField α] [FloorRing α]

/-- `EyeTracker.get_statistics`: error on empty `blink_history`, otherwise
duration, blink rate, per-eye EAR statistics, gaze tally and data-point
count, with the source's `round(_, 2)` / `round(_, 3)` calls modelled by
`pyround`. -/
def get_statistics (s : TrackerState α) : StatsResult α :=
  if s.blink_history.isEmpty then StatsResult.error "No tracking data available"
  else
    let start_time := (s.blink_history.headD default).timestamp
    let end_time := (s.blink_history.getLastD default).timestamp
    let duration := end_time - start_time
    let blink_rate := if duration > 0 then ((s.total_blinks : α) / duration) * 60 else 0
    let left_ears := s.blink_history.map (fun d => d.left_ear)
    let right_ears := s.blink_history.map (fun d => d.right_ear)
    let avg_ears := s.blink_history.map (fun d => d.avg_ear)
    let gaze_directions := s.movement_history.map (fun d => d.gaze_direction)
    let gaze_counts := gaze_directions.foldl tallyDirection []
    StatsResult.ok
      { duration_seconds := pyround 2 duration
        total_blinks := s.total_blinks
        blink_rate_per_minute := pyround 2 blink_rate
        left_eye :=
          { mean := pyround 3 (listMean left_ears)
            min := pyround 3 (listMin left_ears)
            max := pyround 3 (listMax left_ears) }
        right_eye :=
          { mean := pyround 3 (listMean right_ears)
            min := pyround 3 (listMin right_ears)
            max := pyround 3 (listMax right_ears) }
        average :=
          { mean := pyround 3 (listMean avg_ears)
            min := pyround 3 (listMin avg_ears)
            max := pyround 3 (listMax avg_ears) }
        gaze_distribution := gaze_counts
        data_points := s.blink_history.length }

end GetStatistics

/-! ## FrameProcessor: landmark index tables and `process_frame` -/

/-- `EyeLandmarks.LEFT_EYE`. -/
def LEFT_EYE : List ℕ := [33, 160, 158, 133, 153, 144]

/-- `EyeLandmarks.RIGHT_EYE`. -/
def RIGHT_EYE : List ℕ := [362, 385, 387, 263, 373, 380]

/-- `EyeLandmarks.LEFT_IRIS`. -/
def LEFT_IRIS : List ℕ := [468, 469, 470, 471, 472]

/-- `EyeLandmarks.RIGHT_IRIS`. -/
def RIGHT_IRIS : List ℕ := [473, 474, 475, 476, 477]

/-- `EyeLandmarks.LEFT_EYE_CORNERS`. -/
def LEFT_EYE_CORNERS : List ℕ := [33, 133]

/-- `EyeLandmarks.RIGHT_EYE_CORNERS`. -/
def RIGHT_EYE_CORNERS : List ℕ := [362, 263]

/-- The MediaPipe face-mesh output consumed by `process_frame`: normalized
landmark coordinates, indexable by landmark number. -/
structure FaceLandmarks where
  landmark : ℕ → ℝ × ℝ

/-- Python `int(...)`: truncation toward zero. -/
noncomputable def int_trunc (x : ℝ) : ℤ :=
  if 0 ≤ x then ⌊x⌋ else -⌊-x⌋

/-- `EyeTracker.extract_eye_landmarks`: scale each indexed normalized
landmark to pixel coordinates with `int(...)` truncation. -/
noncomputable def extract_eye_landmarks (face_landmarks : FaceLandmarks)
    (eye_indices : List ℕ) (image_width image_height : ℕ) : List (ℝ × ℝ) :=
  eye_indices.map fun idx =>
    ((int_trunc ((face_landmarks.landmark idx).1 * image_width) : ℝ),
     (int_trunc ((face_landmarks.landmark idx).2 * image_height) : ℝ))

/-- `EyeTracker.process_frame`.  The MediaPipe inference result becomes an
`Option FaceLandmarks` argument, the image dimensions and the
`datetime.now().timestamp()` reading become parameters, and the on-frame
drawing (`cv2.circle` / `cv2.putText` annotations) is not modelled as it
changes no tracker state.  With no face landmarks nothing happens and both
data outputs are `none`; otherwise the eye contours, iris sets and corner
sets are extracted, EAR is computed for both eyes (each contour has exactly
6 points, so `calculate_ear` always returns `ok` and the `getD 0` default is
never consulted), `detect_blink` updates the state, and the blink and
movement records are produced. -/
noncomputable def process_frame (s : TrackerState ℝ) (image_width image_height : ℕ)
    (results : Option FaceLandmarks) (timestamp : ℝ) :
    TrackerState ℝ × Option (BlinkData ℝ) × Option (EyeMovementData ℝ) :=
  match results with
  | none => (s, none, none)
  | some face_landmarks =>
    let left_eye := extract_eye_landmarks face_landmarks LEFT_EYE image_width image_height
    let right_eye := extract_eye_landmarks face_landmarks RIGHT_EYE image_width image_height
    let left_ear := (calculate_ear left_eye).toOption.getD 0
    let right_ear := (calculate_ear right_eye).toOption.getD 0
    let res := detect_blink s left_ear right_ear
    let s1 := res.1
    let is_blinking := res.2.1
    let avg_ear := res.2.2
    let blink_data : BlinkData ℝ :=
      { timestamp := timestamp
        left_ear := left_ear
        right_ear := right_ear
        avg_ear := avg_ear
        is_blinking := is_blinking
        blink_count := s1.total_blinks }
    let left_iris := extract_eye_landmarks face_landmarks LEFT_IRIS image_width image_height
    let right_iris := extract_eye_landmarks face_landmarks RIGHT_IRIS image_width image_height
    let left_corners := extract_eye_landmarks face_landmarks LEFT_EYE_CORNERS image_width image_height
    let right_corners := extract_eye_landmarks face_landmarks RIGHT_EYE_CORNERS image_width image_height
    let gaze_direction := estimate_gaze_direction left_iris right_iris left_corners right_corners
    let left_iris_center := mean_point left_iris
    let right_iris_center := mean_point right_iris
    let movement_data : EyeMovementData ℝ :=
      { timestamp := timestamp
        left_gaze_x := left_iris_center.1
        left_gaze_y := left_iris_center.2
        right_gaze_x := right_iris_center.1
        right_gaze_y := right_iris_center.2
        gaze_direction := gaze_direction }
    (s1, some blink_data, some movement_data)

/-! ## Observation sequences for the blink state machine (at `ℚ`) -/

/-- The tracker state right after `EyeTracker.__init__` (all counters zero,
empty histories). -/
def initState : TrackerState ℚ := ⟨0, 0, 0, [], []⟩

/-- One `detect_blink` call viewed as a state transformer; the observation
is the `(left_ear, right_ear)` pair. -/
def observe_step (s : TrackerState ℚ) (x : ℚ × ℚ) : TrackerState ℚ :=
  (detect_blink s x.1 x.2).1

/-- Run a finite sequence of `detect_blink` calls. -/
def observe_seq (s : TrackerState ℚ) (xs : List (ℚ × ℚ)) : TrackerState ℚ :=
  xs.foldl observe_step s

/-- An observation whose averaged EAR is strictly below the threshold. -/
def belowThreshold (x : ℚ × ℚ) : Bool :=
  decide ((x.1 + x.2) / 2 < EAR_THRESHOLD)

/-- Length of the maximal run of below-threshold observations at the end of
the sequence (the current closed-eye run). -/
def trailingRun (xs : List (ℚ × ℚ)) : ℕ :=
  (xs.reverse.takeWhile belowThreshold).length

/-! ## Lemmas about one `detect_blink` step -/

theorem detect_blink_frame_counter (s : TrackerState ℚ) (l r : ℚ) :
    (detect_blink s l r).1.frame_counter =
      if (l + r) / 2 < EAR_THRESHOLD then s.frame_counter + 1 else 0 := by
  by_cases h : (l + r) / 2 < (EAR_THRESHOLD : ℚ) <;>
    simp [detect_blink, h]

theorem detect_blink_total_blinks (s : TrackerState ℚ) (l r : ℚ) :
    (detect_blink s l r).1.total_blinks =
      s.total_blinks +
        if ¬ (l + r) / 2 < EAR_THRESHOLD ∧ EAR_CONSEC_FRAMES ≤ s.frame_counter then 1
        else 0 := by
  by_cases h : (l + r) / 2 < (EAR_THRESHOLD : ℚ)
  · simp [detect_blink, h]
  · by_cases h2 : EAR_CONSEC_FRAMES ≤ s.frame_counter <;> simp [detect_blink, h, h2]

theorem detect_blink_is_blinking (s : TrackerState ℚ) (l r : ℚ) :
    (detect_blink s l r).2.1 =
      decide (EAR_CONSEC_FRAMES ≤ (detect_blink s l r).1.frame_counter) := rfl

theorem observe_seq_append (s : TrackerState ℚ) (xs : List (ℚ × ℚ)) (x : ℚ × ℚ) :
    observe_seq s (xs ++ [x]) = observe_step (observe_seq s xs) x := by
  simp [observe_seq, List.foldl_append]

theorem observe_seq_cons (s : TrackerState ℚ) (x : ℚ × ℚ) (xs : List (ℚ × ℚ)) :
    observe_seq s (x :: xs) = observe_seq (observe_step s x) xs := rfl

theorem observe_seq_split (s : TrackerState ℚ) (xs ys : List (ℚ × ℚ)) :
    observe_seq s (xs ++ ys) = observe_seq (observe_seq s xs) ys := by
  simp [observe_seq, List.foldl_append]

theorem trailingRun_append (xs : List (ℚ × ℚ)) (x : ℚ × ℚ) :
    trailingRun (xs ++ [x]) = if belowThreshold x then trailingRun xs + 1 else 0 := by
  by_cases h : belowThreshold x <;>
    simp [trailingRun, List.reverse_append, List.takeWhile_cons, h]

/-- Invariant: after any observation sequence from the fresh state,
`frame_counter` is exactly the length of the current trailing run of
below-threshold observations. -/
theorem observe_seq_frame_counter (xs : List (ℚ × ℚ)) :
    (observe_seq initState xs).frame_counter = trailingRun xs := by
  induction xs using List.reverseRecOn with
  | nil => rfl
  | append_singleton l a ih =>
    rw [observe_seq_append, trailingRun_append]
    show (detect_blink (observe_seq initState l) a.1 a.2).1.frame_counter = _
    rw [detect_blink_frame_counter, ih]
    by_cases h : (a.1 + a.2) / 2 < (EAR_THRESHOLD : ℚ) <;>
      simp [belowThreshold, h]

theorem observe_seq_total_blinks_mono (ys : List (ℚ × ℚ)) (s : TrackerState ℚ) :
    s.total_blinks ≤ (observe_seq s ys).total_blinks := by
  induction ys generalizing s with
  | nil => exact le_refl _
  | cons y ys ih =>
    rw [observe_seq_cons]
    refine le_trans ?_ (ih _)
    show s.total_blinks ≤ (detect_blink s y.1 y.2).1.total_blinks
    rw [detect_blink_total_blinks]
    exact Nat.le_add_right _ _

/-- C1: over any observation sequence from the fresh state, `total_blinks`
is non-decreasing, and appending one more observation adds exactly 1 to it
precisely when that observation is at-or-above threshold and the trailing
below-threshold run so far has length at least `EAR_CONSEC_FRAMES` (= 2);
in every other case (below-threshold observation, or reopening after a
shorter run) it is unchanged. -/
theorem total_blinks_step_spec (xs ys : List (ℚ × ℚ)) (x : ℚ × ℚ) :
    (observe_seq initState xs).total_blinks ≤
        (observe_seq initState (xs ++ ys)).total_blinks ∧
    (observe_seq initState (xs ++ [x])).total_blinks =
      (observe_seq initState xs).total_blinks +
        (if belowThreshold x = false ∧ EAR_CONSEC_FRAMES ≤ trailingRun xs then 1
         else 0) := by
  constructor
  · rw [observe_seq_split]
    exact observe_seq_total_blinks_mono ys _
  · rw [observe_seq_append]
    show (detect_blink (observe_seq initState xs) x.1 x.2).1.total_blinks = _
    rw [detect_blink_total_blinks, observe_seq_frame_counter]
    congr 1
    by_cases h : (x.1 + x.2) / 2 < (EAR_THRESHOLD : ℚ) <;>
      simp [belowThreshold, h]

/-- C2: after any observation, the returned `is_blinking` flag is true iff
the current run of consecutive below-threshold observations, including this
one, has length at least `EAR_CONSEC_FRAMES` (= 2); in particular it is
false on the observation where the eyes reopen (the run length is then 0). -/
theorem is_blinking_iff_run (xs : List (ℚ × ℚ)) (x : ℚ × ℚ) :
    (detect_blink (observe_seq initState xs) x.1 x.2).2.1 = true ↔
      EAR_CONSEC_FRAMES ≤ trailingRun (xs ++ [x]) := by
  rw [detect_blink_is_blinking]
  have h1 : (detect_blink (observe_seq initState xs) x.1 x.2).1 =
      observe_seq initState (xs ++ [x]) := (observe_seq_append _ _ _).symm
  rw [h1, observe_seq_frame_counter]
  exact decide_eq_true_iff

theorem observe_seq_at_threshold_aux (xs : List (ℚ × ℚ)) (s : TrackerState ℚ)
    (hfc : s.frame_counter = 0)
    (hall : ∀ x ∈ xs, (x.1 + x.2) / 2 = (EAR_THRESHOLD : ℚ)) :
    (observe_seq s xs).total_blinks = s.total_blinks ∧
      (observe_seq s xs).frame_counter = 0 := by
  induction xs generalizing s with
  | nil => exact ⟨rfl, hfc⟩
  | cons y ys ih =>
    have hy : (y.1 + y.2) / 2 = (EAR_THRESHOLD : ℚ) := hall y (List.mem_cons_self y ys)
    have hlt : ¬ (y.1 + y.2) / 2 < (EAR_THRESHOLD : ℚ) := by rw [hy]; exact lt_irrefl _
    rw [observe_seq_cons]
    have h1 : (observe_step s y).frame_counter = 0 := by
      show (detect_blink s y.1 y.2).1.frame_counter = 0
      rw [detect_blink_frame_counter, if_neg hlt]
    have h2 : (observe_step s y).total_blinks = s.total_blinks := by
      show (detect_blink s y.1 y.2).1.total_blinks = s.total_blinks
      rw [detect_blink_total_blinks]
      simp [hfc, EAR_CONSEC_FRAMES]
    obtain ⟨ha, hb⟩ := ih (observe_step s y) h1
      (fun x hx => hall x (List.mem_cons_of_mem y hx))
    exact ⟨by rw [ha, h2], hb⟩

/-- C10: an observation whose averaged EAR is exactly `EAR_THRESHOLD` is
treated as eyes-open (the below-threshold comparison is strict): the
resulting `frame_counter` is 0 (any current run is terminated, nothing is
incremented) and `is_blinking` is false; and a fresh-state sequence of
observations all exactly at the threshold keeps `total_blinks` at 0 and
`frame_counter` at 0 throughout. -/
theorem at_threshold_treated_as_open :
    (∀ (s : TrackerState ℚ) (l r : ℚ), (l + r) / 2 = EAR_THRESHOLD →
      (detect_blink s l r).1.frame_counter = 0 ∧ (detect_blink s l r).2.1 = false) ∧
    (∀ xs : List (ℚ × ℚ), (∀ x ∈ xs, (x.1 + x.2) / 2 = (EAR_THRESHOLD : ℚ)) →
      (observe_seq initState xs).total_blinks = 0 ∧
        (observe_seq initState xs).frame_counter = 0) := by
  constructor
  · intro s l r h
    have hlt : ¬ (l + r) / 2 < (EAR_THRESHOLD : ℚ) := by rw [h]; exact lt_irrefl _
    have h1 : (detect_blink s l r).1.frame_counter = 0 := by
      rw [detect_blink_frame_counter, if_neg hlt]
    refine ⟨h1, ?_⟩
    rw [detect_blink_is_blinking, h1]
    simp [EAR_CONSEC_FRAMES]
  · intro xs hall
    have h := observe_seq_at_threshold_aux xs initState rfl hall
    exact ⟨h.1.trans rfl, h.2⟩

/-- A tracker state in the middle of a confirmed closed-eye run, used to
instantiate the C10 witness. -/
def stW : TrackerState ℚ := ⟨0, 0, 5, [], []⟩

/-- Three observations all exactly at the threshold. -/
def xsW : List (ℚ × ℚ) :=
  [(EAR_THRESHOLD, EAR_THRESHOLD), (EAR_THRESHOLD, EAR_THRESHOLD),
   (EAR_THRESHOLD, EAR_THRESHOLD)]

theorem xsW_at_threshold : ∀ x ∈ xsW, (x.1 + x.2) / 2 = (EAR_THRESHOLD : ℚ) := by
  intro x hx
  have hx1 : x = ((EAR_THRESHOLD : ℚ), (EAR_THRESHOLD : ℚ)) := by
    simp only [xsW, List.mem_cons, List.mem_singleton, List.not_mem_nil, or_false] at hx
    rcases hx with h | h | h <;> exact h
  rw [hx1]
  exact add_self_div_two _

/-- Witness for C10 at concrete inputs. -/
theorem at_threshold_treated_as_open_witness :
    (((EAR_THRESHOLD : ℚ) + EAR_THRESHOLD) / 2 = EAR_THRESHOLD ∧
      (detect_blink stW EAR_THRESHOLD EAR_THRESHOLD).1.frame_counter = 0 ∧
      (detect_blink stW EAR_THRESHOLD EAR_THRESHOLD).2.1 = false) ∧
    ((∀ x ∈ xsW, (x.1 + x.2) / 2 = (EAR_THRESHOLD : ℚ)) ∧
      (observe_seq initState xsW).total_blinks = 0 ∧
      (observe_seq initState xsW).frame_counter = 0) :=
  ⟨⟨add_self_div_two _,
    at_threshold_treated_as_open.1 stW EAR_THRESHOLD EAR_THRESHOLD (add_self_div_two _)⟩,
   ⟨xsW_at_threshold, at_threshold_treated_as_open.2 xsW xsW_at_threshold⟩⟩

/-- C4: `get_statistics` returns the structured error value exactly when
`blink_history` is empty, and a full statistics record (no error) exactly
when it is non-empty; being a total Lean function it raises nothing. -/
theorem get_statistics_empty_iff (s : TrackerState ℚ) :
    (get_statistics s = StatsResult.error "No tracking data available" ↔
      s.blink_history = []) ∧
    ((∃ r, get_statistics s = StatsResult.ok r) ↔ s.blink_history ≠ []) := by
  by_cases h : s.blink_history = [] <;>
    simp [get_statistics, List.isEmpty_iff, h]

/-- A two-record session used to refute the exactness part of C5: records at
timestamps 0 and 0.007 seconds, one counted blink, all EAR samples 0.3. -/
def st0 : TrackerState ℚ :=
  ⟨0, 1, 0,
   [⟨0, 3/10, 3/10, 3/10, false, 0⟩, ⟨7/1000, 3/10, 3/10, 3/10, false, 1⟩],
   []⟩

/-- The statistics record `get_statistics` actually produces on `st0`. -/
def r0 : SessionStatistics ℚ :=
  ⟨1/100, 1, 857143/100, ⟨3/10, 3/10, 3/10⟩, ⟨3/10, 3/10, 3/10⟩,
   ⟨3/10, 3/10, 3/10⟩, [], 2⟩

theorem get_statistics_st0 : get_statistics st0 = StatsResult.ok r0 := by
  show StatsResult.ok _ = StatsResult.ok r0
  norm_num [st0, r0, pyround, roundHalfEven, listMean, listMin, listMax,
    tallyDirection]

/-- C5 counterexample: on the concrete session `st0` (timestamps 0 and
7/1000, `total_blinks = 1`) the returned `duration_seconds` is the rounded
value 0.01, not the exact timestamp difference 0.007, and
`blink_rate_per_minute` is the rounded 8571.43, not the exact
`(total_blinks / duration) * 60`; so the claimed exact equalities fail. -/
theorem get_statistics_not_exact :
    (st0.blink_history.headD default).timestamp = 0 ∧
    (st0.blink_history.getLastD default).timestamp = 7/1000 ∧
    st0.total_blinks = 1 ∧
    ∃ r, get_statistics st0 = StatsResult.ok r ∧
      r.duration_seconds ≠
        (st0.blink_history.getLastD default).timestamp -
          (st0.blink_history.headD default).timestamp ∧
      r.blink_rate_per_minute ≠
        ((st0.total_blinks : ℚ) /
            ((st0.blink_history.getLastD default).timestamp -
              (st0.blink_history.headD default).timestamp)) * 60 := by
  refine ⟨rfl, rfl, rfl, r0, get_statistics_st0, ?_, ?_⟩ <;>
    norm_num [st0, r0]

/-- C5 amended: for every state with non-empty `blink_history`,
`get_statistics` returns a record whose `duration_seconds` is the last
record's timestamp minus the first's rounded to 2 decimal digits, whose
`blink_rate_per_minute` is `(total_blinks / duration) * 60` when
`duration > 0` and `0` otherwise, rounded to 2 decimal digits, and whose
`data_points` is the length of `blink_history`. -/
theorem get_statistics_fields (s : TrackerState ℚ) (h : s.blink_history ≠ []) :
    ∃ r, get_statistics s = StatsResult.ok r ∧
      r.duration_seconds =
        pyround 2 ((s.blink_history.getLastD default).timestamp -
          (s.blink_history.headD default).timestamp) ∧
      r.blink_rate_per_minute =
        pyround 2
          (if (s.blink_history.getLastD default).timestamp -
                (s.blink_history.headD default).timestamp > 0 then
            ((s.total_blinks : ℚ) /
                ((s.blink_history.getLastD default).timestamp -
                  (s.blink_history.headD default).timestamp)) * 60
           else 0) ∧
      r.data_points = s.blink_history.length := by
  have hne : s.blink_history.isEmpty = false := by
    simp [List.isEmpty_iff, h]
  simp only [get_statistics, hne, Bool.false_eq_true, if_false]
  exact ⟨_, rfl, rfl, rfl, rfl⟩

/-- Witness for the amended C5 at the concrete session `st0`. -/
theorem get_statistics_fields_witness :
    st0.blink_history ≠ [] ∧
    ∃ r, get_statistics st0 = StatsResult.ok r ∧
      r.duration_seconds =
        pyround 2 ((st0.blink_history.getLastD default).timestamp -
          (st0.blink_history.headD default).timestamp) ∧
      r.blink_rate_per_minute =
        pyround 2
          (if (st0.blink_history.getLastD default).timestamp -
                (st0.blink_history.headD default).timestamp > 0 then
            ((st0.total_blinks : ℚ) /
                ((st0.blink_history.getLastD default).timestamp -
                  (st0.blink_history.headD default).timestamp)) * 60
           else 0) ∧
      r.data_points = st0.blink_history.length :=
  ⟨by simp [st0], get_statistics_fields st0 (by simp [st0])⟩

/-- C8: `process_frame` on a frame with no detected face landmarks produces
no blink record and no movement record and leaves every tracker-state field
(`frame_counter`, `total_blinks`, `blink_history`, `movement_history`)
unchanged. -/
theorem process_frame_no_face (s : TrackerState ℝ) (w h : ℕ) (t : ℝ) :
    (process_frame s w h none t).2.1 = none ∧
    (process_frame s w h none t).2.2 = none ∧
    (process_frame s w h none t).1.frame_counter = s.frame_counter ∧
    (process_frame s w h none t).1.total_blinks = s.total_blinks ∧
    (process_frame s w h none t).1.blink_history = s.blink_history ∧
    (process_frame s w h none t).1.movement_history = s.movement_history :=
  ⟨rfl, rfl, rfl, rfl, rfl, rfl⟩

/-- The first-match decision chain of the source agrees, at every offset
pair, with a chain of pairwise-disjoint conditions: boundary offsets
(`|dx| = 5` or `|dy| = 3` inside the box) fall through every guard into the
final `center` fallback, so `center` is returned exactly on the closed box
`|dx| ≤ 5 ∧ |dy| ≤ 3`. -/
theorem gaze_cases_aux (dx dy : ℚ) :
    (if |dx| < 5 ∧ |dy| < 3 then "center"
     else if dx < -5 then "left"
     else if dx > 5 then "right"
     else if dy < -3 then "up"
     else if dy > 3 then "down"
     else "center") =
    (if |dx| ≤ 5 ∧ |dy| ≤ 3 then "center"
     else if dx < -5 then "left"
     else if dx > 5 then "right"
     else if dy < -3 then "up"
     else "down") := by
  by_cases hxl : dx < -5
  · have h5 : ¬ (|dx| < 5 ∧ |dy| < 3) := by
      rintro ⟨hx, -⟩; rw [abs_lt] at hx; linarith [hx.1]
    have h6 : ¬ (|dx| ≤ 5 ∧ |dy| ≤ 3) := by
      rintro ⟨hx, -⟩; rw [abs_le] at hx; linarith [hx.1]
    simp only [if_neg h5, if_neg h6, if_pos hxl]
  · by_cases hxr : dx > 5
    · have h5 : ¬ (|dx| < 5 ∧ |dy| < 3) := by
        rintro ⟨hx, -⟩; rw [abs_lt] at hx; linarith [hx.2]
      have h6 : ¬ (|dx| ≤ 5 ∧ |dy| ≤ 3) := by
        rintro ⟨hx, -⟩; rw [abs_le] at hx; linarith [hx.2]
      simp only [if_neg h5, if_neg h6, if_neg hxl, if_pos hxr]
    · have hdx : |dx| ≤ 5 :=
        abs_le.mpr ⟨by linarith [not_lt.mp hxl], by linarith [not_lt.mp hxr]⟩
      by_cases hyu : dy < -3
      · have h5 : ¬ (|dx| < 5 ∧ |dy| < 3) := by
          rintro ⟨-, hy⟩; rw [abs_lt] at hy; linarith [hy.1]
        have h6 : ¬ (|dx| ≤ 5 ∧ |dy| ≤ 3) := by
          rintro ⟨-, hy⟩; rw [abs_le] at hy; linarith [hy.1]
        simp only [if_neg h5, if_neg h6, if_neg hxl, if_neg hxr, if_pos hyu]
      · by_cases hyd : dy > 3
        · have h5 : ¬ (|dx| < 5 ∧ |dy| < 3) := by
            rintro ⟨-, hy⟩; rw [abs_lt] at hy; linarith [hy.2]
          have h6 : ¬ (|dx| ≤ 5 ∧ |dy| ≤ 3) := by
            rintro ⟨-, hy⟩; rw [abs_le] at hy; linarith [hy.2]
          simp only [if_neg h5, if_neg h6, if_neg hxl, if_neg hxr, if_neg hyu,
            if_pos hyd]
        · have hdy : |dy| ≤ 3 :=
            abs_le.mpr ⟨by linarith [not_lt.mp hyu], by linarith [not_lt.mp hyd]⟩
          conv_rhs => rw [if_pos ⟨hdx, hdy⟩]
          by_cases h5 : |dx| < 5 ∧ |dy| < 3
          · rw [if_pos h5]
          · rw [if_neg h5, if_neg hxl, if_neg hxr, if_neg hyu, if_neg hyd]

/-- C6: the gaze classifier's output on any four point sets is the first
matching case, on the averaged offset `(dx, dy)`, of: center if
`|dx| < 5 ∧ |dy| < 3`; left if `dx < -5`; right if `dx > 5`; up if
`dy < -3`; down if `dy > 3`; center otherwise — equivalently (second
conjunct) the disjoint classification in which `center` covers exactly the
closed box `|dx| ≤ 5 ∧ |dy| ≤ 3`. -/
theorem estimate_gaze_direction_spec (li ri lc rc : List (ℚ × ℚ)) :
    (estimate_gaze_direction li ri lc rc =
      if |(avg_gaze_offset li ri lc rc).1| < 5 ∧ |(avg_gaze_offset li ri lc rc).2| < 3 then
        "center"
      else if (avg_gaze_offset li ri lc rc).1 < -5 then "left"
      else if (avg_gaze_offset li ri lc rc).1 > 5 then "right"
      else if (avg_gaze_offset li ri lc rc).2 < -3 then "up"
      else if (avg_gaze_offset li ri lc rc).2 > 3 then "down"
      else "center") ∧
    (estimate_gaze_direction li ri lc rc =
      if |(avg_gaze_offset li ri lc rc).1| ≤ 5 ∧ |(avg_gaze_offset li ri lc rc).2| ≤ 3 then
        "center"
      else if (avg_gaze_offset li ri lc rc).1 < -5 then "left"
      else if (avg_gaze_offset li ri lc rc).1 > 5 then "right"
      else if (avg_gaze_offset li ri lc rc).2 < -3 then "up"
      else "down") := by
  have h1 : estimate_gaze_direction li ri lc rc =
      if |(avg_gaze_offset li ri lc rc).1| < 5 ∧ |(avg_gaze_offset li ri lc rc).2| < 3 then
        "center"
      else if (avg_gaze_offset li ri lc rc).1 < -5 then "left"
      else if (avg_gaze_offset li ri lc rc).1 > 5 then "right"
      else if (avg_gaze_offset li ri lc rc).2 < -3 then "up"
      else if (avg_gaze_offset li ri lc rc).2 > 3 then "down"
      else "center" := rfl
  exact ⟨h1, h1.trans (gaze_cases_aux _ _)⟩

/-- C3: on every 6-point contour, `calculate_ear` succeeds and returns
exactly the spec's formula `ear_spec` — `(dist(eye[1],eye[5]) +
dist(eye[2],eye[4])) / (2*dist(eye[0],eye[3]))`, with result `0.0` (not a
failure) when the horizontal distance `dist(eye[0],eye[3])` is exactly 0. -/
theorem calculate_ear_matches_spec (eye : List (ℝ × ℝ)) (h : eye.length = 6) :
    calculate_ear eye = Except.ok (ear_spec eye) ∧
    (calculate_distance (eye.getD 0 (0, 0)) (eye.getD 3 (0, 0)) = 0 →
      calculate_ear eye = Except.ok 0) := by
  have hk : calculate_ear eye = Except.ok (ear_formula eye) := by
    simp [calculate_ear, h]
  have hform : ear_formula eye = ear_spec eye := by
    by_cases hz : calculate_distance (eye.getD 0 (0, 0)) (eye.getD 3 (0, 0)) = 0 <;>
      simp [ear_formula, ear_spec, hz]
  refine ⟨by rw [hk, hform], fun hz => ?_⟩
  rw [hk, hform]
  simp only [ear_spec]
  rw [if_pos hz]

/-- A concrete 6-point eye contour. -/
def eyeW : List (ℝ × ℝ) := [(0, 0), (1, 1), (2, 1), (3, 0), (2, -1), (1, -1)]

/-- Witness for C3 at the concrete 6-point contour `eyeW`. -/
theorem calculate_ear_matches_spec_witness :
    eyeW.length = 6 ∧
    (calculate_ear eyeW = Except.ok (ear_spec eyeW) ∧
      (calculate_distance (eyeW.getD 0 (0, 0)) (eyeW.getD 3 (0, 0)) = 0 →
        calculate_ear eyeW = Except.ok 0)) :=
  ⟨rfl, calculate_ear_matches_spec eyeW rfl⟩

/-- C9: `calculate_ear` succeeds (returns a value) exactly on inputs with
exactly 6 points, and signals the invalid-input error exactly on inputs
whose length differs from 6. -/
theorem calculate_ear_length_check (eye : List (ℝ × ℝ)) :
    ((∃ v, calculate_ear eye = Except.ok v) ↔ eye.length = 6) ∧
    (calculate_ear eye = Except.error "Eye landmarks must contain exactly 6 points" ↔
      eye.length ≠ 6) := by
  by_cases h : eye.length = 6 <;> simp [calculate_ear, h]

theorem calculate_distance_smul (c : ℝ) (hc : 0 ≤ c) (p q : ℝ × ℝ) :
    calculate_distance (c * p.1, c * p.2) (c * q.1, c * q.2) =
      c * calculate_distance p q := by
  simp only [calculate_distance]
  have h : (c * p.1 - c * q.1) ^ 2 + (c * p.2 - c * q.2) ^ 2 =
      c ^ 2 * ((p.1 - q.1) ^ 2 + (p.2 - q.2) ^ 2) := by ring
  rw [h, Real.sqrt_mul (sq_nonneg c), Real.sqrt_sq hc]

theorem getD_map_scale (eye : List (ℝ × ℝ)) (c : ℝ) (i : ℕ) (hi : i < eye.length) :
    (eye.map (fun p => (c * p.1, c * p.2))).getD i (0, 0) =
      (c * (eye.getD i (0, 0)).1, c * (eye.getD i (0, 0)).2) := by
  rw [List.getD_eq_getElem?_getD, List.getD_eq_getElem?_getD, List.getElem?_map,
    List.getElem?_eq_getElem hi]
  simp

/-- C7: the EAR of a 6-point contour is invariant under uniform scaling of
all points by any positive factor (and on non-6-point inputs both sides
fail identically), exactly because EAR is a ratio of distances. -/
theorem calculate_ear_scale_invariant (eye : List (ℝ × ℝ)) (c : ℝ) (hc : 0 < c) :
    calculate_ear (eye.map (fun p => (c * p.1, c * p.2))) = calculate_ear eye := by
  by_cases h : eye.length = 6
  · have hm : (eye.map (fun p => (c * p.1, c * p.2))).length = 6 := by simp [h]
    simp only [calculate_ear, hm, h, if_true]
    congr 1
    simp only [ear_formula]
    rw [getD_map_scale eye c 1 (by omega), getD_map_scale eye c 5 (by omega),
      getD_map_scale eye c 2 (by omega), getD_map_scale eye c 4 (by omega),
      getD_map_scale eye c 0 (by omega), getD_map_scale eye c 3 (by omega),
      calculate_distance_smul c hc.le, calculate_distance_smul c hc.le,
      calculate_distance_smul c hc.le]
    have hc0 : c ≠ 0 := ne_of_gt hc
    by_cases hz : calculate_distance (eye.getD 0 (0, 0)) (eye.getD 3 (0, 0)) = 0
    · rw [if_pos (show c * calculate_distance (eye.getD 0 (0, 0)) (eye.getD 3 (0, 0)) = 0
          from by rw [hz, mul_zero]), if_pos hz]
    · rw [if_neg (mul_ne_zero hc0 hz), if_neg hz]
      rw [show c * calculate_distance (eye.getD 1 (0, 0)) (eye.getD 5 (0, 0)) +
            c * calculate_distance (eye.getD 2 (0, 0)) (eye.getD 4 (0, 0)) =
          c * (calculate_distance (eye.getD 1 (0, 0)) (eye.getD 5 (0, 0)) +
            calculate_distance (eye.getD 2 (0, 0)) (eye.getD 4 (0, 0))) from by ring,
        show (2 : ℝ) * (c * calculate_distance (eye.getD 0 (0, 0)) (eye.getD 3 (0, 0))) =
          c * (2 * calculate_distance (eye.getD 0 (0, 0)) (eye.getD 3 (0, 0))) from by ring,
        mul_div_mul_left _ _ hc0]
  · have hm : ¬ (eye.map (fun p => (c * p.1, c * p.2))).length = 6 := by
      simpa using h
    simp [calculate_ear, h, hm]

/-- Witness for C7: scaling the concrete contour `eyeW` by 2 leaves its EAR
unchanged. -/
theorem calculate_ear_scale_invariant_witness :
    (0 : ℝ) < 2 ∧
      calculate_ear (eyeW.map (fun p => (2 * p.1, 2 * p.2))) = calculate_ear eyeW :=
  ⟨two_pos, calculate_ear_scale_invariant eyeW 2 two_pos⟩
